import Mathlib

/-
Verification development for the corpora controller of the Online Linguistic
Database (onlinelinguisticdatabase/controllers/corpora.py), the read-only
phonology-backups sibling resource, and the auxiliary functions of the corpora
controller.  The Python code is shallowly embedded: ORM rows become structures,
the ORM session becomes an explicit `DB` value, the file system becomes an
explicit `FS` value, and raised exceptions become `Except` errors.  Columns the
claims never touch (UUID, enterer, datetimeEntered, ...) are omitted from the
structures.
-/

set_option autoImplicit false

namespace Old

/-- A tag row; only the name column matters here (the "restricted" check reads
`t.name`). -/
structure Tag where
  name : String
deriving DecidableEq

/-- A form row: its primary key and its tags (`form.tags`). -/
structure Form where
  id : Nat
  tags : List Tag
deriving DecidableEq

/-- A user row: primary key and role.  Python compares user objects by row
identity; structural equality of the embedded rows models that. -/
structure User where
  id : Nat
  role : String
deriving DecidableEq

/-- A corpus-file metadata row (model CorpusFile).  `id` is the primary key
(0 while the row is pending, before the database assigns one); datetimes are
modelled as naturals. -/
structure CorpusFile where
  id : Nat
  filename : String
  format : String
  restricted : Bool
  creator : Nat
  modifier : Nat
  datetimeCreated : Nat
  datetimeModified : Nat
deriving DecidableEq

instance {ε α : Type _} [DecidableEq ε] [DecidableEq α] : DecidableEq (Except ε α) := fun a b =>
  match a, b with
  | .ok x, .ok y =>
      if h : x = y then .isTrue (congrArg Except.ok h)
      else .isFalse (fun hc => h (Except.ok.inj hc))
  | .error x, .error y =>
      if h : x = y then .isTrue (congrArg Except.error h)
      else .isFalse (fun hc => h (Except.error.inj hc))
  | .ok _, .error _ => .isFalse (fun hc => Except.noConfusion hc)
  | .error _, .ok _ => .isFalse (fun hc => Except.noConfusion hc)

/-- Modelled from the spec: a saved form search (model FormSearch).  The
SQLAQueryBuilder and the search evaluation are not under src; the spec says the
saved search is evaluated to the list of forms to export, and that the
evaluation can fail (a search-parse error).  `results` is that evaluation:
either the forms the query returns or the exception it raises. -/
structure FormSearch where
  id : Nat
  results : Except String (List Form)
deriving DecidableEq

/-- A corpus row (model Corpus).  `tags` and `forms` are lists of optional rows:
the update path assigns the submitted lists (which the source guards with
`if f` / `if t`, so they may hold falsy entries) directly into these
attributes (corpora.py lines 520-521); rows loaded from the database are all
`some`. -/
structure Corpus where
  id : Nat
  name : String
  description : String
  content : String
  formSearch : Option FormSearch
  tags : List (Option Tag)
  forms : List (Option Form)
  files : List CorpusFile
  modifier : Nat
  datetimeModified : Nat
deriving DecidableEq

/-- A corpus backup row (model CorpusBackup): `vivify` copies the corpus's
dictionary representation, which in this shallow embedding is the corpus value
itself. -/
structure CorpusBackup where
  snapshot : Corpus
deriving DecidableEq

/-- The relational store reachable through the ORM session: the corpus table
and the corpus-backup table. -/
structure DB where
  corpora : List Corpus
  backups : List CorpusBackup
deriving DecidableEq

/-- `Session.query(Corpus).get(id)`: look a corpus up by primary key. -/
def DB.findCorpus (db : DB) (id : Nat) : Option Corpus :=
  db.corpora.find? (fun c => decide (c.id = id))

/-- Committing an updated corpus row: replace the row with that primary key. -/
def DB.commitCorpus (db : DB) (id : Nat) (c : Corpus) : DB :=
  { db with corpora := db.corpora.map (fun c0 => if c0.id = id then c else c0) }

/-- The output of `schema.to_python` on an update/create request body: the
validated submitted values.  `forms` and `tags` may contain falsy entries
(the source filters them with `if f`). -/
structure CorpusData where
  name : String
  description : String
  content : String
  formSearch : Option FormSearch
  tags : List (Option Tag)
  forms : List (Option Form)
deriving DecidableEq

/-- The file system: regular files (path paired with content) and
directories. -/
structure FS where
  files : List (String × String)
  dirs : List String
deriving DecidableEq

/-- `os.path.exists`. -/
def FS.pathExists (fs : FS) (p : String) : Bool :=
  fs.files.any (fun q => decide (q.1 = p)) || fs.dirs.any (fun d => decide (d = p))

/-- Reading a regular file's content, if it exists. -/
def FS.readFile (fs : FS) (p : String) : Option String :=
  (fs.files.find? (fun q => decide (q.1 = p))).map (fun q => q.2)

/-- `codecs.open(p, 'w', 'utf8')` followed by writing `content`: create or
overwrite the regular file at `p`. -/
def FS.writeFile (fs : FS) (p : String) (content : String) : FS :=
  ⟨(p, content) :: fs.files.filter (fun q => decide (q.1 ≠ p)), fs.dirs⟩

/-- `shutil.rmtree(p)`: removes `p` when it is a directory; raises an `OSError`
otherwise (in particular on a regular file, whose `os.listdir` fails, and on a
missing path). -/
def FS.rmtree (fs : FS) (p : String) : Except String FS :=
  if fs.dirs.any (fun d => decide (d = p)) then
    .ok ⟨fs.files, fs.dirs.filter (fun d => decide (d ≠ p))⟩
  else .error "OSError"

/-- corpora.py lines 395-399 (inner helper of writeToFile): `rmtree` wrapped in
try/except-pass, so any raised error is swallowed and the file system is left
as it was. -/
def destroyFile (fs : FS) (filePath : String) : FS :=
  match fs.rmtree filePath with
  | .ok fs2 => fs2
  | .error _ => fs

/-- Modelled from the spec: `h.compressFile` (helpers module, not under src)
"gzip-compresses" the written corpus file, producing `path.gz` beside it; it
raises an IOError when the path does not exist. -/
def compressFile (fs : FS) (filePath : String) : Except String FS :=
  match fs.readFile filePath with
  | some content => .ok (fs.writeFile (filePath ++ ".gz") content)
  | none => .error "IOError"

/-- Modelled from the spec: `h.getOLDDirectoryPath('corpora', ...)` (helpers
module, not under src) is the store directory for corpus exports; the corpus
directory below it is `corpus_<id>` (corpora.py lines 568-570). -/
def getCorpusDirPath (corpus : Corpus) : String :=
  "corpora/corpus_" ++ toString corpus.id

/-- Digit scanning used by the reference pattern: consume a maximal run of
digits, accumulating their value, and return the rest of the input. -/
def readDigits : List Char → Nat → Nat × List Char
  | [], acc => (acc, [])
  | c :: cs, acc =>
      if c.isDigit then readDigits cs (acc * 10 + (c.toNat - 48)) else (acc, c :: cs)

/-- Modelled from the spec: `h.formReferencePattern.findall` (helpers module,
not under src) returns, in occurrence order, the digit groups of the form
references `form[N]` appearing in the corpus content; scanning resumes after a
complete match and one character past a failed one.  The fuel argument (the
input length suffices) only bounds the recursion. -/
def findFormReferencesAux : Nat → List Char → List Nat
  | 0, _ => []
  | _ + 1, [] => []
  | fuel + 1, 'f' :: 'o' :: 'r' :: 'm' :: '[' :: c :: cs =>
      if c.isDigit then
        match readDigits cs (c.toNat - 48) with
        | (n, ']' :: rest) => n :: findFormReferencesAux fuel rest
        | (_, _) => findFormReferencesAux fuel ('o' :: 'r' :: 'm' :: '[' :: c :: cs)
      else findFormReferencesAux fuel ('o' :: 'r' :: 'm' :: '[' :: c :: cs)
  | fuel + 1, _ :: cs => findFormReferencesAux fuel cs

/-- corpora.py lines 349-353: return the forms referenced in the corpus
content, in the order they were referenced; the empty (falsy) content yields
the empty list. -/
def getFormReferences (corpusContent : String) : List Nat :=
  if corpusContent = "" then []
  else findFormReferencesAux (corpusContent.length + 1) corpusContent.data

/-- Modelled from the spec: one entry of `h.corpusFormats` (helpers module, not
under src): the format-specific form writer and the file extension and suffix
used by getCorpusFilePath. -/
structure FormatSpec where
  writer : Form → String
  extension : String
  suffix : String

/-- The check `"restricted" in [t.name for t in form.tags]` (corpora.py lines
414 and 423). -/
def hasRestrictedTag (form : Form) : Bool :=
  (form.tags.map Tag.name).contains "restricted"

/-- corpora.py lines 551-566: the corpus file of a corpus for a format is
`<corpus dir>/corpus_<id><suffix>.<extension>`.  The source looks extension and
suffix up in `h.corpusFormats[format_]`; here the looked-up entry is passed
in. -/
def getCorpusFilename (corpus : Corpus) (fspec : FormatSpec) : String :=
  "corpus_" ++ toString corpus.id ++ fspec.suffix ++ "." ++ fspec.extension

def getCorpusFilePath (corpus : Corpus) (fspec : FormatSpec) : String :=
  getCorpusDirPath corpus ++ "/" ++ getCorpusFilename corpus fspec

/-- The writing loop of the formSearch branch (corpora.py lines 412-416):
each form is passed through the writer in order and the restricted flag is
raised as soon as a written form carries the "restricted" tag. -/
def writeFormsLoop (writer : Form → String) (restricted : Bool) :
    List Form → String × Bool
  | [] => ("", restricted)
  | form :: rest =>
      let res := writeFormsLoop writer (restricted || hasRestrictedTag form) rest
      (writer form ++ res.1, res.2)

/-- The dict comprehension `dict([(f.id, f) for f in corpus.forms])`
(corpora.py line 419): raises an AttributeError when a forms entry is falsy
(`None.id`); on duplicate keys the later entry wins, which the ordering below
reproduces for `List.find?`. -/
def formsDict : List (Option Form) → Except String (List (Nat × Form))
  | [] => .ok []
  | none :: _ => .error "AttributeError"
  | some f :: rest => (formsDict rest).map (fun m => m ++ [(f.id, f)])

/-- The message of the KeyError raised by `forms[id]` on a reference to a form
that is not among the corpus's forms. -/
def keyErrorMsg (id : Nat) : String :=
  "KeyError: " ++ toString id

/-- The writing loop of the content branch (corpora.py lines 421-425): each
referenced form is looked up in the dict and written in reference order; a
missing reference raises a KeyError, and the error value carries the output
written before the failure (the partially written file). -/
def resolveWriteLoop (writer : Form → String) (fmap : List (Nat × Form))
    (restricted : Bool) : List Nat → Except (String × String) (String × Bool)
  | [] => .ok ("", restricted)
  | i :: rest =>
      match fmap.find? (fun p => decide (p.1 = i)) with
      | none => .error ("", keyErrorMsg i)
      | some p =>
          match resolveWriteLoop writer fmap (restricted || hasRestrictedTag p.2) rest with
          | .ok res => .ok (writer p.2 ++ res.1, res.2)
          | .error res => .error (writer p.2 ++ res.1, res.2)

/-- corpora.py lines 405-426 (the first try-suite of writeToFile): create the
corpus file on the file system.  On success it returns the file system after
the write and the compression together with the restricted flag; on failure it
returns the raised message together with the file system at the moment of the
raise (the partially written file, when the failure happened after the open). -/
def writeCorpusFileToDisk (fspec : FormatSpec) (corpus : Corpus) (path : String)
    (fs : FS) : Except (String × FS) (FS × Bool) :=
  match corpus.formSearch with
  | some fsearch =>
      match fsearch.results with
      | .error e => .error (e, fs)
      | .ok forms =>
          let res := writeFormsLoop fspec.writer false forms
          match compressFile (fs.writeFile path res.1) path with
          | .ok fs2 => .ok (fs2, res.2)
          | .error e => .error (e, fs.writeFile path res.1)
  | none =>
      let formReferences := getFormReferences corpus.content
      match formsDict corpus.forms with
      | .error e => .error (e, fs)
      | .ok fmap =>
          match resolveWriteLoop fspec.writer fmap false formReferences with
          | .error res => .error (res.2, fs.writeFile path res.1)
          | .ok res =>
              match compressFile (fs.writeFile path res.1) path with
              | .ok fs2 => .ok (fs2, res.2)
              | .error e => .error (e, fs.writeFile path res.1)

/-- Mutating the first row whose filename matches, leaving the others as they
are. -/
def updateFirstMatching : List CorpusFile → String → User → Nat → Bool → List CorpusFile
  | [], _, _, _, _ => []
  | cf :: rest, fname, user, now, restricted =>
      if cf.filename = fname then
        { cf with restricted := restricted, modifier := user.id, datetimeModified := now } :: rest
      else cf :: updateFirstMatching rest fname user now restricted

/-- corpora.py lines 377-382 (inner helper of writeToFile): what the body of
`updateCorpusFile` does when it runs: mutate the first corpus-file row whose
filename matches `corpusFilename` in place (restricted, modifier, modification
time) and touch the corpus's modification time; it raises an IndexError when no
row matches.  Note the body reads the closure variables `corpusFilename`,
`user` and `now`, not its parameters. -/
def updateCorpusFile (corpus : Corpus) (corpusFilename : String) (user : User)
    (now : Nat) (restricted : Bool) : Except String Corpus :=
  if (corpus.files.filter (fun cf => decide (cf.filename = corpusFilename))).isEmpty then
    .error "IndexError"
  else
    .ok { corpus with
          files := updateFirstMatching corpus.files corpusFilename user now restricted,
          datetimeModified := now }

/-- corpora.py lines 384-393 (inner helper of writeToFile): create a new
corpus-file row and append it to `corpus.files` (the row's primary key is
pending, modelled as 0). -/
def generateNewCorpusFile (corpus : Corpus) (filename format_ : String)
    (creator : User) (datetimeCreated : Nat) (restricted : Bool) : Corpus :=
  { corpus with
    files := corpus.files ++
      [{ id := 0, filename := filename, format := format_, restricted := restricted,
         creator := creator.id, modifier := creator.id,
         datetimeCreated := datetimeCreated, datetimeModified := datetimeCreated }],
    datetimeModified := datetimeCreated }

/-- corpora.py lines 374-375: the error body built on a failure inside
writeToFile. -/
def writeToFileErrorMsg (corpusId : Nat) (format_ msg : String) : String :=
  "Unable to write corpus " ++ toString corpusId ++ " to file with format \"" ++
    format_ ++ "\". (" ++ msg ++ ")"

/-- The possible outcomes of writeToFile: the successful return of the corpus
(Session.commit reached), the handled failure (response.status_int set to 400,
the error body returned, no commit), or an exception escaping writeToFile
(the KeyError of getCorpusFilePath on a format absent from h.corpusFormats,
raised at corpora.py line 401 before the first try). -/
inductive WTFOut where
  | success (corpus : Corpus) (fs : FS)
  | failure (msg : String) (fs : FS)
  | raised (exc : String) (fs : FS)

def WTFOut.fileSystem : WTFOut → FS
  | .success _ fs => fs
  | .failure _ fs => fs
  | .raised _ fs => fs

def WTFOut.isSuccess : WTFOut → Bool
  | .success _ _ => true
  | _ => false

def WTFOut.errorOf : WTFOut → Option String
  | .failure msg _ => some msg
  | _ => none

/-- The filenames of the corpus-file rows attached to the returned corpus (on
the non-success outcomes, the empty list). -/
def WTFOut.corpusFilenames : WTFOut → List String
  | .success c _ => c.files.map (fun cf => cf.filename)
  | _ => []

/-- The restricted flag of the last corpus-file row of the returned corpus. -/
def WTFOut.newFileRestricted : WTFOut → Option Bool
  | .success c _ => (c.files.getLast?).map (fun cf => cf.restricted)
  | _ => none

/-- corpora.py lines 356-452: writeToFile.  `formats` models `h.corpusFormats`,
`user` the session user and `now` the value of `h.now()`.

The second try-suite (lines 432-450) deserves a note: in the update case the
source calls
  `updateCorpusFile(corpus, filename, modifier, datetimeModified, restricted)`
(line 439), but the names `filename`, `modifier` and `datetimeModified` are
bound nowhere in writeToFile (its locals are `corpusFilename`, `user` and
`now`), so evaluating the arguments raises a NameError before the helper runs;
the `except Exception` at line 441 catches it and falls through to
`generateNewCorpusFile`.  Both branches of the embedded `if` therefore append a
new row, mirroring what the source actually does. -/
def writeToFile (formats : List (String × FormatSpec)) (user : User) (now : Nat)
    (corpus : Corpus) (format_ : String) (fs : FS) : WTFOut :=
  match formats.find? (fun p => decide (p.1 = format_)) with
  | none => .raised "KeyError" fs
  | some p =>
      let fspec := p.2
      let corpusFilePath := getCorpusFilePath corpus fspec
      let update := fs.pathExists corpusFilePath
      match writeCorpusFileToDisk fspec corpus corpusFilePath fs with
      | .error res =>
          .failure (writeToFileErrorMsg corpus.id format_ res.1) (destroyFile res.2 corpusFilePath)
      | .ok res =>
          let corpusFilename := getCorpusFilename corpus fspec
          let corpus2 :=
            if update then
              generateNewCorpusFile corpus corpusFilename format_ user now res.2
            else
              generateNewCorpusFile corpus corpusFilename format_ user now res.2
          .success corpus2 res.1

/-- The forms writeToFile streams through the writer: the saved search's
results when formSearch is set, otherwise the forms referenced by the content,
resolved through the forms dict. -/
def writtenForms (corpus : Corpus) : List Form :=
  match corpus.formSearch with
  | some fsearch =>
      match fsearch.results with
      | .ok forms => forms
      | .error _ => []
  | none =>
      (getFormReferences corpus.content).filterMap
        (fun i => (((formsDict corpus.forms).toOption.getD []).find?
            (fun p => decide (p.1 = i))).map (fun p => p.2))

/-- A phonology-backup row, as far as the read-only sibling resource needs
it. -/
structure PhonologyBackup where
  id : Nat
  name : String
deriving DecidableEq

/-- The JSON body of a controller response. -/
inductive Body where
  | corpus (c : Corpus)
  | editData (c : Corpus)
  | error (msg : String)
  | raisedExc (exc : String)
  | backup (b : PhonologyBackup)
  | backupList (bs : List PhonologyBackup)
deriving DecidableEq

/-- An HTTP response: the status set on `response.status_int` and the jsonified
return value. -/
structure Response where
  status : Nat
  body : Body
deriving DecidableEq

/-- The 404 body used by the corpora controller for a missing id. -/
def noCorpusMsg (id : Nat) : String :=
  "There is no corpus with id " ++ toString id

/-- Modelled from the spec: `h.setAttr` (helpers module, not under src) sets
the attribute to the new value and reports a change exactly when the new value
differs from the current one. -/
def setAttr {α : Type _} [DecidableEq α] (cur new : α) (changed : Bool) : α × Bool :=
  if new = cur then (cur, changed) else (new, true)

/-- Python set equality of two lists (`set(a) == set(b)`): the same elements on
both sides, multiplicity and order ignored. -/
def pySetEq {α : Type _} [DecidableEq α] (l1 l2 : List α) : Bool :=
  l1.all (fun x => decide (x ∈ l2)) && l2.all (fun x => decide (x ∈ l1))

/-- corpora.py lines 504-538: updateCorpus.  Returns the updated corpus, or
none (Python `False`) when nothing changed.  Note that lines 520-521 overwrite
`corpus.tags` and `corpus.forms` with the submitted lists before the set
comparisons, so the comparisons at lines 527 and 530 run against the submitted
lists themselves, not against the pre-update state; they differ exactly when
the submitted list holds a falsy entry. -/
def updateCorpus (normalize : String → String) (user : User) (now : Nat)
    (corpus : Corpus) (data : CorpusData) : Option Corpus :=
  let r1 := setAttr corpus.name (normalize data.name) false
  let r2 := setAttr corpus.description (normalize data.description) r1.2
  let r3 := setAttr corpus.content (normalize data.content) r2.2
  let r4 := setAttr corpus.formSearch data.formSearch r3.2
  let formsToAdd := data.forms.filterMap id
  let tagsToAdd := data.tags.filterMap id
  let formsEq := pySetEq (formsToAdd.map some) data.forms
  let tagsEq := pySetEq (tagsToAdd.map some) data.tags
  let c5 := if formsEq then r4.2 else true
  let forms1 := if formsEq then data.forms else formsToAdd.map some
  let c6 := if tagsEq then c5 else true
  let tags1 := if tagsEq then data.tags else tagsToAdd.map some
  if c6 then
    some { corpus with
           name := r1.1, description := r2.1, content := r3.1,
           formSearch := r4.1, forms := forms1, tags := tags1,
           modifier := user.id, datetimeModified := now }
  else none

/-- corpora.py lines 459-468: backupCorpus adds one CorpusBackup vivified from
the corpus's dictionary representation to the session. -/
def backupCorpus (corpusDict : Corpus) (db : DB) : DB :=
  { db with backups := db.backups ++ [CorpusBackup.mk corpusDict] }

/-- corpora.py lines 572-584: removeCorpusDirectory removes the corpus's
directory with rmtree, swallowing any error. -/
def removeCorpusDirectory (fs : FS) (corpus : Corpus) : FS :=
  match fs.rmtree (getCorpusDirPath corpus) with
  | .ok fs2 => fs2
  | .error _ => fs

namespace CorporaController

/-- corpora.py lines 203-219: the show action (named `show` in the source;
`show` is a Lean keyword). -/
def showCorpus (db : DB) (id : Nat) : Response :=
  match db.findCorpus id with
  | some corpus => ⟨200, .corpus corpus⟩
  | none => ⟨404, .error (noCorpusMsg id)⟩

/-- corpora.py lines 221-245: the edit action (its data payload is elided). -/
def edit (db : DB) (id : Nat) : Response :=
  match db.findCorpus id with
  | some corpus => ⟨200, .editData corpus⟩
  | none => ⟨404, .error (noCorpusMsg id)⟩

/-- corpora.py lines 135-177: the update action, entered after the request
body has been parsed and validated (`data` is the output of
`schema.to_python`). -/
def update (normalize : String → String) (user : User) (now : Nat) (db : DB)
    (id : Nat) (data : CorpusData) : DB × Response :=
  match db.findCorpus id with
  | none => (db, ⟨404, .error (noCorpusMsg id)⟩)
  | some corpus =>
      let corpusDict := corpus
      match updateCorpus normalize user now corpus data with
      | some corpus2 =>
          let db := backupCorpus corpusDict db
          let db := db.commitCorpus id corpus2
          (db, ⟨200, .corpus corpus2⟩)
      | none =>
          (db, ⟨400, .error "The update request failed because the submitted data were not new."⟩)

/-- corpora.py lines 179-201: the delete action. -/
def delete (db : DB) (fs : FS) (id : Nat) : DB × FS × Response :=
  match db.findCorpus id with
  | none => (db, fs, ⟨404, .error (noCorpusMsg id)⟩)
  | some corpus =>
      let corpusDict := corpus
      let db := backupCorpus corpusDict db
      let db := { db with corpora := db.corpora.filter (fun c => decide (c.id ≠ id)) }
      let fs := removeCorpusDirectory fs corpus
      (db, fs, ⟨200, .corpus corpusDict⟩)

/-- corpora.py lines 274-308: the writetofile action, entered after the
request body has been parsed and the format validated. -/
def writetofile (formats : List (String × FormatSpec)) (user : User) (now : Nat)
    (db : DB) (fs : FS) (id : Nat) (format_ : String) : DB × FS × Response :=
  match db.findCorpus id with
  | none => (db, fs, ⟨404, .error (noCorpusMsg id)⟩)
  | some corpus =>
      match writeToFile formats user now corpus format_ fs with
      | .success corpus2 fs2 => (db.commitCorpus id corpus2, fs2, ⟨200, .corpus corpus2⟩)
      | .failure msg fs2 => (db, fs2, ⟨400, .error msg⟩)
      | .raised exc fs2 => (db, fs2, ⟨500, .raisedExc exc⟩)

end CorporaController

/-- corpora.py lines 341-346: a user may access a corpus file unless the file
is restricted, the user is not an administrator, and the user is not among the
unrestricted users (`h.getUnrestrictedUsers()` is passed in: the helpers module
is not under src). -/
def authorizedToAccessCorpusFile (unrestrictedUsers : List User) (user : User)
    (corpusFile : CorpusFile) : Bool :=
  if corpusFile.restricted && !(decide (user.role = "administrator")) &&
      !(unrestrictedUsers.any (fun u2 => decide (u2 = user))) then
    false
  else true

/-- Value of a run of decimal digits. -/
def digitsToNat : List Char → Nat → Nat
  | [], acc => acc
  | c :: cs, acc => digitsToNat cs (acc * 10 + (c.toNat - 48))

/-- Python `int(s)` on a route parameter: defined on (non-empty) digit
strings, raises a ValueError otherwise. -/
def pyInt (s : String) : Option Nat :=
  if s.data.isEmpty then none
  else if s.data.all Char.isDigit then some (digitsToNat s.data 0)
  else none

/-- The possible outcomes of the servefile action.  `forbidden` is the 403
response carrying `json.dumps(h.unauthorizedMsg)` (the fixed unauthorized
message; helpers not under src); `raised` is an exception escaping the action,
paired with the status already assigned to `response.status_int` when it was
raised. -/
inductive ServeResult where
  | file (path : String)
  | forbidden
  | notFound (msg : String)
  | raised (statusSet : Nat) (exc : String)
deriving DecidableEq

/-- corpora.py lines 310-338: the servefile action.  The route parameters `id`
and `fileId` arrive as strings.  In the except-clause (lines 332-335) the
source sets the status to 400 and then evaluates
  `'Unable to serve corpus file %d of corpus %d' % (fileId, id)`;
`%d` applied to a str raises a TypeError (Python 2), so the handler itself
raises instead of returning the error body. -/
def CorporaController.servefile (unrestrictedUsers : List User) (user : User)
    (db : DB) (id fileId : String) : ServeResult :=
  match (pyInt id).bind db.findCorpus with
  | none => .notFound ("There is no corpus with id " ++ id)
  | some corpus =>
      match pyInt fileId with
      | none => .raised 400 "TypeError"
      | some fid =>
          match corpus.files.filter (fun cf => decide (cf.id = fid)) with
          | [] => .raised 400 "TypeError"
          | corpusFile :: _ =>
              if authorizedToAccessCorpusFile unrestrictedUsers user corpusFile then
                .file (getCorpusDirPath corpus ++ "/" ++ corpusFile.filename ++ ".gz")
              else .forbidden

/-- The actions a Pylons REST controller routes. -/
inductive PBAction where
  | index
  | showAction
  | create
  | new
  | edit
  | update
  | delete
deriving DecidableEq

/-- The write verbs and scaffolding actions of a resource: POST create, GET
new, GET edit, PUT update, DELETE. -/
def PBAction.isWriteAction : PBAction → Bool
  | .create | .new | .edit | .update | .delete => true
  | _ => false

/-- Modelled from the spec: the controller of a read-only sibling resource
(the phonology-backups controller is not under src; only its functional test
is).  Per the spec and test_phonologybackups.py lines 163-182: index and show
serve reads (show answers 404 naming a missing id), and every write verb is
answered with HTTP 404 and the fixed body whose error field is
"This resource is read-only.", whatever id is supplied. -/
def phonologybackupsRespond (backups : List PhonologyBackup) (action : PBAction)
    (id : Nat) : Response :=
  match action with
  | .index => ⟨200, .backupList backups⟩
  | .showAction =>
      match backups.find? (fun b => decide (b.id = id)) with
      | some b => ⟨200, .backup b⟩
      | none => ⟨404, .error ("There is no phonology backup with id " ++ toString id)⟩
  | _ => ⟨404, .error "This resource is read-only."⟩

/-- Concatenation of the strings written to the file, in write order. -/
def strConcat : List String → String
  | [] => ""
  | s :: rest => s ++ strConcat rest

/-- The form a reference resolves to through the forms dict (total companion of
the lookup; only applied where the lookup is known to succeed). -/
def resolveForm (fmap : List (Nat × Form)) (i : Nat) : Form :=
  match fmap.find? (fun p => decide (p.1 = i)) with
  | some p => p.2
  | none => ⟨0, []⟩

/-
Concrete fixtures used by the closed theorems and the witnesses below.
-/

/-- A plain-text format entry: the writer renders a form as `w<id>;`. -/
def fmtT : FormatSpec := ⟨fun f => "w" ++ toString f.id ++ ";", "txt", ""⟩

def formatsT : List (String × FormatSpec) := [("t", fmtT)]

def userA : User := ⟨42, "contributor"⟩

def exForm1 : Form := ⟨1, []⟩

def exForm2 : Form := ⟨2, [⟨"restricted"⟩]⟩

/-- An existing corpus-file row of corpus 3 for format "t". -/
def cf3 : CorpusFile := ⟨11, "corpus_3.txt", "t", false, 1, 1, 0, 0⟩

def corpus3 : Corpus := ⟨3, "c", "", "", none, [], [], [cf3], 1, 0⟩

/-- The file system before a second writetofile on corpus 3: the corpus file
of format "t" already exists (the update case). -/
def fs3 : FS := ⟨[("corpora/corpus_3/corpus_3.txt", "old")], ["corpora/corpus_3"]⟩

/-- A corpus whose content references form 5, which is not among its forms. -/
def corpus7 : Corpus := ⟨7, "c", "", "form[5]", none, [], [], [], 1, 0⟩

def db7 : DB := ⟨[corpus7], []⟩

def fs7 : FS := ⟨[], ["corpora/corpus_7"]⟩

/-- The file system writeToFile leaves behind on the corpus-7 failure: the
partially written (empty) corpus file is still there. -/
def fs7After : FS := ⟨[("corpora/corpus_7/corpus_7.txt", "")], ["corpora/corpus_7"]⟩

/-- A corpus whose content references forms 1, 2, 1 in that order. -/
def corpusW : Corpus := ⟨4, "c", "", "form[1]form[2]form[1]", none, [], [some exForm1, some exForm2], [], 1, 0⟩

def fsW : FS := ⟨[], ["corpora/corpus_4"]⟩

/-- A corpus carrying a saved form search whose evaluation returns form 2. -/
def corpusFS : Corpus := ⟨8, "c", "", "form[1]", some ⟨1, .ok [exForm2]⟩, [], [some exForm1], [], 1, 0⟩

def fs8 : FS := ⟨[], ["corpora/corpus_8"]⟩

/-- A restricted corpus file served by servefile. -/
def cfR : CorpusFile := ⟨5, "corpus_1.txt", "t", true, 1, 1, 0, 0⟩

def corpusS : Corpus := ⟨1, "c", "", "", none, [], [], [cfR], 1, 0⟩

def dbS : DB := ⟨[corpusS], []⟩

def viewer : User := ⟨7, "viewer"⟩

def admin : User := ⟨8, "administrator"⟩

/-- The corpus the C10 scenarios update. -/
def corpusU : Corpus := ⟨1, "n", "d", "", none, [], [some exForm1], [], 50, 10⟩

def dbU : DB := ⟨[corpusU], []⟩

/-- Submitted data equal to corpusU up to a falsy entry in the forms list. -/
def dataU : CorpusData := ⟨"n", "d", "", none, [], [some exForm1, none]⟩

/-- A corpus with two forms, and submitted data that merely reorder and
duplicate them (no falsy entries). -/
def corpusV : Corpus := ⟨1, "n", "d", "", none, [], [some exForm1, some exForm2], [], 50, 10⟩

def dbV : DB := ⟨[corpusV], []⟩

def dataV : CorpusData := ⟨"n", "d", "", none, [], [some exForm2, some exForm1, some exForm1]⟩

/-- Submitted data that rename corpusV (a genuine change). -/
def dataN : CorpusData := ⟨"n2", "d", "", none, [], [some exForm1, some exForm2]⟩

/-- The corpus the renaming update produces. -/
def corpusV2 : Corpus := ⟨1, "n2", "d", "", none, [], [some exForm1, some exForm2], [], 42, 99⟩

/-- The corpus-file row writeToFile appends for corpusW. -/
def cW2file : CorpusFile := ⟨0, "corpus_4.txt", "t", true, 42, 42, 9, 9⟩

/-- The corpus writeToFile returns for corpusW. -/
def cW2 : Corpus := { corpusW with files := [cW2file], datetimeModified := 9 }

/-- The file system writeToFile leaves for corpusW: the plain file and its
gzipped copy, both holding the forms in reference order. -/
def fsW2 : FS :=
  ⟨[("corpora/corpus_4/corpus_4.txt.gz", "w1;w2;w1;"),
    ("corpora/corpus_4/corpus_4.txt", "w1;w2;w1;")], ["corpora/corpus_4"]⟩

/-- The forms dict of corpusW. -/
def fmapW : List (Nat × Form) := [(2, exForm2), (1, exForm1)]

/-
Helper lemmas.
-/

theorem getLast?_append_singleton {α : Type _} (l : List α) (a : α) :
    (l ++ [a]).getLast? = some a := by
  induction l with
  | nil => rfl
  | cons b l ih =>
      rw [List.cons_append]
      cases l with
      | nil => rfl
      | cons c l => simpa using ih

theorem readFile_writeFile_self (fs : FS) (p c : String) :
    (fs.writeFile p c).readFile p = some c := by
  unfold FS.writeFile FS.readFile
  rw [List.find?_cons_of_pos _ (by simp)]
  rfl

theorem find?_filter_of_imp {α : Type _} (l : List α) (pred f : α → Bool)
    (h : ∀ x, pred x = true → f x = true) :
    (l.filter f).find? pred = l.find? pred := by
  induction l with
  | nil => rfl
  | cons a l ih =>
      by_cases hf : f a = true
      · rw [List.filter_cons_of_pos hf]
        by_cases hp : pred a = true
        · rw [List.find?_cons_of_pos _ hp, List.find?_cons_of_pos _ hp]
        · rw [List.find?_cons_of_neg _ (by simpa using hp),
              List.find?_cons_of_neg _ (by simpa using hp), ih]
      · have hp : ¬ pred a = true := fun hpa => hf (h a hpa)
        rw [List.filter_cons_of_neg (by simpa using hf),
            List.find?_cons_of_neg _ (by simpa using hp), ih]

theorem readFile_writeFile_ne (fs : FS) (p q c : String) (h : q ≠ p) :
    (fs.writeFile p c).readFile q = fs.readFile q := by
  unfold FS.writeFile FS.readFile
  rw [List.find?_cons_of_neg _ (by simpa using fun hpq => h hpq.symm)]
  rw [find?_filter_of_imp]
  intro x hx
  simp only [decide_eq_true_eq] at hx ⊢
  intro hxp
  exact h (hx.symm.trans hxp)

theorem self_append_gz_ne (p : String) : p ++ ".gz" ≠ p := by
  intro h
  have h2 : (p ++ ".gz").length = p.length := congrArg String.length h
  have h3 : (".gz" : String).length = 3 := rfl
  rw [String.length_append, h3] at h2
  omega

theorem compressFile_writeFile (fs : FS) (p out : String) :
    compressFile (fs.writeFile p out) p =
      .ok ((fs.writeFile p out).writeFile (p ++ ".gz") out) := by
  unfold compressFile
  rw [readFile_writeFile_self]

theorem readFile_after_compress (fs : FS) (p out : String) :
    ((fs.writeFile p out).writeFile (p ++ ".gz") out).readFile p = some out := by
  rw [readFile_writeFile_ne _ _ _ _ (fun h => self_append_gz_ne p h.symm)]
  exact readFile_writeFile_self fs p out

theorem writeFormsLoop_snd (w : Form → String) (r : Bool) (l : List Form) :
    (writeFormsLoop w r l).2 = (r || l.any hasRestrictedTag) := by
  induction l generalizing r with
  | nil => simp [writeFormsLoop]
  | cons f rest ih => simp [writeFormsLoop, ih, Bool.or_assoc]

theorem resolveWriteLoop_ok (w : Form → String) (fmap : List (Nat × Form))
    (r : Bool) (refs : List Nat) (out : String) (rOut : Bool)
    (h : resolveWriteLoop w fmap r refs = .ok (out, rOut)) :
    (∀ i ∈ refs, (fmap.find? (fun p => decide (p.1 = i))).isSome = true) ∧
    out = strConcat (refs.map (fun i => w (resolveForm fmap i))) ∧
    rOut = (r || (refs.map (resolveForm fmap)).any hasRestrictedTag) := by
  induction refs generalizing r out rOut with
  | nil =>
      unfold resolveWriteLoop at h
      cases h
      exact ⟨fun i hi => absurd hi (List.not_mem_nil i), rfl, by simp⟩
  | cons i rest ih =>
      cases hf : fmap.find? (fun p => decide (p.1 = i)) with
      | none => simp only [resolveWriteLoop, hf] at h; cases h
      | some p =>
          simp only [resolveWriteLoop, hf] at h
          cases hr : resolveWriteLoop w fmap (r || hasRestrictedTag p.2) rest with
          | error res => rw [hr] at h; cases h
          | ok res =>
              rw [hr] at h
              cases h
              obtain ⟨hall, hout, hrest⟩ := ih _ _ _ hr
              refine ⟨?_, ?_, ?_⟩
              · intro j hj
                rcases List.mem_cons.mp hj with hj | hj
                · subst hj; rw [hf]; rfl
                · exact hall j hj
              · rw [hout]
                simp [strConcat, resolveForm, hf]
              · rw [hrest]
                simp [resolveForm, hf, Bool.or_assoc]

theorem resolveWriteLoop_all_found (w : Form → String) (fmap : List (Nat × Form))
    (r : Bool) (refs : List Nat)
    (h : ∀ i ∈ refs, (fmap.find? (fun p => decide (p.1 = i))).isSome = true) :
    ∃ rOut, resolveWriteLoop w fmap r refs =
      .ok (strConcat (refs.map (fun i => w (resolveForm fmap i))), rOut) := by
  induction refs generalizing r with
  | nil => exact ⟨r, rfl⟩
  | cons i rest ih =>
      have hi := h i (List.mem_cons_self i rest)
      cases hf : fmap.find? (fun p => decide (p.1 = i)) with
      | none => rw [hf] at hi; cases hi
      | some p =>
          obtain ⟨rOut, hrec⟩ := ih (r || hasRestrictedTag p.2)
            (fun j hj => h j (List.mem_cons_of_mem i hj))
          refine ⟨rOut, ?_⟩
          simp only [resolveWriteLoop, hf, hrec]
          simp [strConcat, resolveForm, hf]

theorem filterMap_lookup_eq_map_resolveForm (fmap : List (Nat × Form)) (refs : List Nat)
    (h : ∀ i ∈ refs, (fmap.find? (fun p => decide (p.1 = i))).isSome = true) :
    refs.filterMap (fun i => (fmap.find? (fun p => decide (p.1 = i))).map (fun p => p.2)) =
      refs.map (resolveForm fmap) := by
  induction refs with
  | nil => rfl
  | cons i rest ih =>
      have hi := h i (List.mem_cons_self i rest)
      cases hf : fmap.find? (fun p => decide (p.1 = i)) with
      | none => rw [hf] at hi; cases hi
      | some p =>
          rw [List.filterMap_cons, List.map_cons, hf,
              ih (fun j hj => h j (List.mem_cons_of_mem i hj))]
          simp [resolveForm, hf]

theorem writeCorpusFileToDisk_ok_restricted (fspec : FormatSpec) (corpus : Corpus)
    (path : String) (fs fs2 : FS) (r : Bool)
    (h : writeCorpusFileToDisk fspec corpus path fs = .ok (fs2, r)) :
    r = (writtenForms corpus).any hasRestrictedTag := by
  cases hfs : corpus.formSearch with
  | some fsearch =>
      cases hres : fsearch.results with
      | error e => simp only [writeCorpusFileToDisk, hfs, hres] at h; cases h
      | ok forms =>
          simp only [writeCorpusFileToDisk, hfs, hres, compressFile_writeFile] at h
          cases h
          simp only [writtenForms, hfs, hres]
          exact writeFormsLoop_snd _ _ _
  | none =>
      cases hfd : formsDict corpus.forms with
      | error e => simp only [writeCorpusFileToDisk, hfs, hfd] at h; cases h
      | ok fmap =>
          cases hrl : resolveWriteLoop fspec.writer fmap false (getFormReferences corpus.content) with
          | error res => simp only [writeCorpusFileToDisk, hfs, hfd, hrl] at h; cases h
          | ok res =>
              simp only [writeCorpusFileToDisk, hfs, hfd, hrl, compressFile_writeFile] at h
              cases h
              obtain ⟨hall, _, hr⟩ := resolveWriteLoop_ok _ _ _ _ res.1 res.2
                (by rw [hrl])
              simp only [writtenForms, hfs, hfd, Except.toOption, Option.getD_some]
              rw [filterMap_lookup_eq_map_resolveForm _ _ hall, hr]
              simp

theorem pySetEq_self {α : Type _} [DecidableEq α] (l : List α) : pySetEq l l = true := by
  unfold pySetEq
  rw [Bool.and_eq_true]
  constructor <;> · rw [List.all_eq_true]; intro x hx; simpa using hx

theorem filterMap_id_map_some {α : Type _} (l : List (Option α))
    (h : ∀ x ∈ l, x ≠ none) : (l.filterMap id).map some = l := by
  induction l with
  | nil => rfl
  | cons x rest ih =>
      cases x with
      | none => exact absurd rfl (h none (List.mem_cons_self _ _))
      | some a =>
          rw [List.filterMap_cons]
          simp only [id_eq]
          rw [List.map_cons, ih (fun y hy => h y (List.mem_cons_of_mem _ hy))]

/-
Claim theorems.
-/

/-- C1 (failing evaluation): the claim says writeToFile upserts, yet in the
update case (the corpus file of format "t" already exists on disk, first
conjunct) a successful writeToFile leaves TWO corpus-file rows with the same
filename instead of updating the existing one (second conjunct), because the
call to updateCorpusFile at corpora.py line 439 raises a NameError and the
handler falls back to generateNewCorpusFile.  The third conjunct shows the
in-place update the code documents was available: updateCorpusFile itself,
when run, updates the matching row's restricted flag, modifier and
modification time without appending. -/
theorem writeToFile_update_appends_duplicate_record :
    fs3.pathExists (getCorpusFilePath corpus3 fmtT) = true ∧
    (writeToFile formatsT userA 9 corpus3 "t" fs3).corpusFilenames =
      ["corpus_3.txt", "corpus_3.txt"] ∧
    updateCorpusFile corpus3 "corpus_3.txt" userA 9 false =
      .ok ⟨3, "c", "", "", none, [], [],
           [⟨11, "corpus_3.txt", "t", false, 1, 42, 0, 9⟩], 1, 9⟩ :=
  ⟨rfl, rfl, rfl⟩

/-- C2 (failing evaluation): when writeToFile fails (corpus 7 references form
5, which is absent), the controller answers 400 with the error body, the
database is left untouched (no commit), but the partially written file is NOT
deleted: destroyFile calls shutil.rmtree on a regular-file path, the OSError is
swallowed, and the empty partial file is still on disk (second conjunct). -/
theorem writeToFile_failure_leaves_partial_file :
    CorporaController.writetofile formatsT userA 9 db7 fs7 7 "t" =
      (db7, fs7After, ⟨400, .error (writeToFileErrorMsg 7 "t" (keyErrorMsg 5))⟩) ∧
    fs7After.readFile "corpora/corpus_7/corpus_7.txt" = some "" :=
  ⟨rfl, rfl⟩

/-- C9 (failing evaluation plus the working access checks): asking servefile
for a file id that matches no corpus file sets the status to 400 but then
raises a TypeError while formatting the error body (the route parameters are
strings and the format is %d), so no 400 error body is returned (first
conjunct).  The access rule itself works as claimed: a restricted file is
denied with the 403 unauthorized response for a plain viewer, and granted to an
administrator or an unrestricted-list member; a missing corpus yields the 404
body naming the id. -/
theorem servefile_error_path_raises_typeerror :
    CorporaController.servefile [] viewer dbS "1" "6" = .raised 400 "TypeError" ∧
    CorporaController.servefile [] viewer dbS "1" "5" = .forbidden ∧
    CorporaController.servefile [] admin dbS "1" "5" =
      .file "corpora/corpus_1/corpus_1.txt.gz" ∧
    CorporaController.servefile [viewer] viewer dbS "1" "5" =
      .file "corpora/corpus_1/corpus_1.txt.gz" ∧
    CorporaController.servefile [] viewer dbS "2" "5" =
      .notFound "There is no corpus with id 2" :=
  ⟨by decide, by decide, by decide, by decide, by decide⟩

/-- C6: every write verb (create, new, edit, update, delete) on the read-only
phonology-backups resource is answered with HTTP 404 and the fixed body whose
error field is "This resource is read-only.", whatever backups exist and
whatever id is supplied. -/
theorem readonly_resource_rejects_write_verbs (backups : List PhonologyBackup)
    (action : PBAction) (id : Nat) (h : action.isWriteAction = true) :
    phonologybackupsRespond backups action id =
      ⟨404, .error "This resource is read-only."⟩ := by
  cases action <;> first
    | exact absurd h (by decide)
    | exact rfl

/-- Witness for C6 at the test's own input: a PUT update on id 2232. -/
theorem readonly_resource_rejects_write_verbs_witness :
    PBAction.update.isWriteAction = true ∧
    phonologybackupsRespond [] PBAction.update 2232 =
      ⟨404, .error "This resource is read-only."⟩ :=
  ⟨by decide, readonly_resource_rejects_write_verbs [] PBAction.update 2232 (by decide)⟩

/-- C8: when no corpus has the requested id, show, edit, update, delete and
writetofile each answer HTTP 404 with the error body naming the id, the
database is returned unchanged by all of them, and the file system is returned
unchanged by the two actions that touch it. -/
theorem missing_corpus_404_no_state_change (normalize : String → String)
    (formats : List (String × FormatSpec)) (user : User) (now : Nat)
    (db : DB) (fs : FS) (id : Nat) (data : CorpusData) (format_ : String)
    (h : db.findCorpus id = none) :
    CorporaController.showCorpus db id = ⟨404, .error (noCorpusMsg id)⟩ ∧
    CorporaController.edit db id = ⟨404, .error (noCorpusMsg id)⟩ ∧
    CorporaController.update normalize user now db id data =
      (db, ⟨404, .error (noCorpusMsg id)⟩) ∧
    CorporaController.delete db fs id = (db, fs, ⟨404, .error (noCorpusMsg id)⟩) ∧
    CorporaController.writetofile formats user now db fs id format_ =
      (db, fs, ⟨404, .error (noCorpusMsg id)⟩) := by
  refine ⟨?_, ?_, ?_, ?_, ?_⟩ <;>
    simp [CorporaController.showCorpus, CorporaController.edit,
      CorporaController.update, CorporaController.delete,
      CorporaController.writetofile, h]

/-- Witness for C8: the empty database has no corpus 1. -/
theorem missing_corpus_404_no_state_change_witness :
    (DB.mk [] []).findCorpus 1 = none ∧
    (CorporaController.showCorpus ⟨[], []⟩ 1 = ⟨404, .error (noCorpusMsg 1)⟩ ∧
     CorporaController.edit ⟨[], []⟩ 1 = ⟨404, .error (noCorpusMsg 1)⟩ ∧
     CorporaController.update id userA 0 ⟨[], []⟩ 1 dataU =
       (⟨[], []⟩, ⟨404, .error (noCorpusMsg 1)⟩) ∧
     CorporaController.delete ⟨[], []⟩ fs7 1 = (⟨[], []⟩, fs7, ⟨404, .error (noCorpusMsg 1)⟩) ∧
     CorporaController.writetofile formatsT userA 0 ⟨[], []⟩ fs7 1 "t" =
       (⟨[], []⟩, fs7, ⟨404, .error (noCorpusMsg 1)⟩)) :=
  ⟨rfl, missing_corpus_404_no_state_change id formatsT userA 0 ⟨[], []⟩ fs7 1 dataU "t" rfl⟩

/-- C5: a successful PUT update of an existing corpus (one that updateCorpus
reports as changed) appends exactly one CorpusBackup to the backup table, and
it snapshots the pre-update corpus; a DELETE of an existing corpus likewise
appends exactly one CorpusBackup snapshotting the pre-deletion corpus. -/
theorem update_and_delete_create_one_backup (normalize : String → String)
    (user : User) (now : Nat) (db : DB) (fs : FS) (id : Nat)
    (corpus corpus2 : Corpus) (data : CorpusData)
    (hfind : db.findCorpus id = some corpus)
    (hupd : updateCorpus normalize user now corpus data = some corpus2) :
    (CorporaController.update normalize user now db id data).1.backups =
      db.backups ++ [CorpusBackup.mk corpus] ∧
    (CorporaController.delete db fs id).1.backups =
      db.backups ++ [CorpusBackup.mk corpus] := by
  constructor
  · simp [CorporaController.update, hfind, hupd, backupCorpus, DB.commitCorpus]
  · simp [CorporaController.delete, hfind, backupCorpus]

/-- Witness for C5: renaming corpusV is a real change, and both operations add
exactly the snapshot of corpusV. -/
theorem update_and_delete_create_one_backup_witness :
    dbV.findCorpus 1 = some corpusV ∧
    updateCorpus id userA 99 corpusV dataN = some corpusV2 ∧
    ((CorporaController.update id userA 99 dbV 1 dataN).1.backups =
       dbV.backups ++ [CorpusBackup.mk corpusV] ∧
     (CorporaController.delete dbV fsW 1).1.backups =
       dbV.backups ++ [CorpusBackup.mk corpusV]) :=
  ⟨rfl, by decide,
   update_and_delete_create_one_backup id userA 99 dbV fsW 1 corpusV corpusV2 dataN rfl (by decide)⟩

/-- C3: whenever writeToFile succeeds, the corpus-file row it produced (the
last row of the returned corpus's files) has its restricted flag set if and
only if some form among those written to the file carries a tag named
"restricted". -/
theorem writeToFile_restricted_iff_restricted_form_written
    (formats : List (String × FormatSpec)) (user : User) (now : Nat)
    (corpus : Corpus) (format_ : String) (fs : FS) (corpus2 : Corpus) (fs2 : FS)
    (h : writeToFile formats user now corpus format_ fs = .success corpus2 fs2) :
    ∃ cf, corpus2.files.getLast? = some cf ∧
      (cf.restricted = true ↔
        ∃ form ∈ writtenForms corpus, hasRestrictedTag form = true) := by
  cases hfmt : formats.find? (fun p => decide (p.1 = format_)) with
  | none => simp only [writeToFile, hfmt] at h; cases h
  | some pr =>
      cases hw : writeCorpusFileToDisk pr.2 corpus (getCorpusFilePath corpus pr.2) fs with
      | error res => simp only [writeToFile, hfmt, hw] at h; cases h
      | ok res =>
          simp only [writeToFile, hfmt, hw, ite_self] at h
          cases h
          have hr := writeCorpusFileToDisk_ok_restricted pr.2 corpus
            (getCorpusFilePath corpus pr.2) fs res.1 res.2 (by rw [hw])
          refine ⟨⟨0, getCorpusFilename corpus pr.2, format_, res.2, user.id, user.id, now, now⟩,
                  ?_, ?_⟩
          · simp only [generateNewCorpusFile]
            exact getLast?_append_singleton _ _
          · simp only [hr]
            exact List.any_eq_true

/-- Witness for C3: writing corpusW (which references the restricted form 2)
succeeds and the produced row is restricted, with a restricted form among the
written forms. -/
theorem writeToFile_restricted_iff_witness :
    writeToFile formatsT userA 9 corpusW "t" fsW = .success cW2 fsW2 ∧
    (∃ cf, cW2.files.getLast? = some cf ∧
      (cf.restricted = true ↔
        ∃ form ∈ writtenForms corpusW, hasRestrictedTag form = true)) :=
  ⟨rfl, writeToFile_restricted_iff_restricted_form_written
          formatsT userA 9 corpusW "t" fsW cW2 fsW2 rfl⟩

/-- C4: when a corpus has a formSearch, the outcome of writeToFile — the file
system it produces (hence the exported file's contents), whether it succeeds,
the restricted flag of the produced row and any error body — is unchanged
under arbitrary replacement of the corpus's content string and explicit forms
list: the saved search supersedes both, and the content path is only taken
without a formSearch. -/
theorem writeToFile_formSearch_supersedes_content
    (formats : List (String × FormatSpec)) (user : User) (now : Nat)
    (corpus : Corpus) (format_ : String) (fs : FS) (fsearch : FormSearch)
    (content2 : String) (forms2 : List (Option Form))
    (hfs : corpus.formSearch = some fsearch) :
    ((writeToFile formats user now { corpus with content := content2, forms := forms2 }
        format_ fs).fileSystem =
      (writeToFile formats user now corpus format_ fs).fileSystem) ∧
    ((writeToFile formats user now { corpus with content := content2, forms := forms2 }
        format_ fs).isSuccess =
      (writeToFile formats user now corpus format_ fs).isSuccess) ∧
    ((writeToFile formats user now { corpus with content := content2, forms := forms2 }
        format_ fs).newFileRestricted =
      (writeToFile formats user now corpus format_ fs).newFileRestricted) ∧
    ((writeToFile formats user now { corpus with content := content2, forms := forms2 }
        format_ fs).errorOf =
      (writeToFile formats user now corpus format_ fs).errorOf) := by
  have hkey : ∀ fspec path fs0, writeCorpusFileToDisk fspec
      { corpus with content := content2, forms := forms2 } path fs0 =
      writeCorpusFileToDisk fspec corpus path fs0 := by
    intro fspec path fs0
    simp only [writeCorpusFileToDisk, hfs]
  cases hfmt : formats.find? (fun p => decide (p.1 = format_)) with
  | none =>
      refine ⟨?_, ?_, ?_, ?_⟩ <;> simp only [writeToFile, hfmt]
  | some pr =>
      have hpath : getCorpusFilePath { corpus with content := content2, forms := forms2 } pr.2 =
          getCorpusFilePath corpus pr.2 := rfl
      cases hw : writeCorpusFileToDisk pr.2 corpus (getCorpusFilePath corpus pr.2) fs with
      | error res =>
          have hwM : writeCorpusFileToDisk pr.2
              { corpus with content := content2, forms := forms2 }
              (getCorpusFilePath corpus pr.2) fs = .error res := by rw [hkey, hw]
          refine ⟨?_, ?_, ?_, ?_⟩ <;>
            simp only [writeToFile, hfmt, hpath, hwM, hw, WTFOut.fileSystem,
              WTFOut.isSuccess, WTFOut.newFileRestricted, WTFOut.errorOf]
      | ok res =>
          have hwM : writeCorpusFileToDisk pr.2
              { corpus with content := content2, forms := forms2 }
              (getCorpusFilePath corpus pr.2) fs = .ok res := by rw [hkey, hw]
          refine ⟨?_, ?_, ?_, ?_⟩ <;>
            simp only [writeToFile, hfmt, hpath, hwM, hw, ite_self, WTFOut.fileSystem,
              WTFOut.isSuccess, WTFOut.newFileRestricted, WTFOut.errorOf,
              generateNewCorpusFile, getLast?_append_singleton] <;>
            rfl

/-- Witness for C4: corpusFS carries a saved search; replacing its content and
forms changes nothing observable about the writeToFile outcome. -/
theorem writeToFile_formSearch_supersedes_content_witness :
    corpusFS.formSearch = some ⟨1, .ok [exForm2]⟩ ∧
    (((writeToFile formatsT userA 9 { corpusFS with content := "other", forms := [] }
         "t" fs8).fileSystem =
       (writeToFile formatsT userA 9 corpusFS "t" fs8).fileSystem) ∧
     ((writeToFile formatsT userA 9 { corpusFS with content := "other", forms := [] }
         "t" fs8).isSuccess =
       (writeToFile formatsT userA 9 corpusFS "t" fs8).isSuccess) ∧
     ((writeToFile formatsT userA 9 { corpusFS with content := "other", forms := [] }
         "t" fs8).newFileRestricted =
       (writeToFile formatsT userA 9 corpusFS "t" fs8).newFileRestricted) ∧
     ((writeToFile formatsT userA 9 { corpusFS with content := "other", forms := [] }
         "t" fs8).errorOf =
       (writeToFile formatsT userA 9 corpusFS "t" fs8).errorOf)) :=
  ⟨rfl, writeToFile_formSearch_supersedes_content formatsT userA 9 corpusFS "t" fs8
          ⟨1, .ok [exForm2]⟩ "other" [] rfl⟩

/-- C7: for a corpus without a formSearch all of whose content references
resolve, writeToFile succeeds and the exported file holds exactly the writer's
renderings of the referenced forms, concatenated in the order the references
occur in the content (repeats included, each occurrence in place, as the map
over getFormReferences states); and getFormReferences of empty content is the
empty list. -/
theorem writeToFile_writes_forms_in_reference_order
    (formats : List (String × FormatSpec)) (user : User) (now : Nat)
    (corpus : Corpus) (format_ fname : String) (fspec : FormatSpec) (fs : FS)
    (fmap : List (Nat × Form))
    (hfmt : formats.find? (fun p => decide (p.1 = format_)) = some (fname, fspec))
    (hfs : corpus.formSearch = none)
    (hfd : formsDict corpus.forms = .ok fmap)
    (hall : ∀ i ∈ getFormReferences corpus.content,
      (fmap.find? (fun p => decide (p.1 = i))).isSome = true) :
    (∃ corpus2 fs2, writeToFile formats user now corpus format_ fs = .success corpus2 fs2 ∧
      fs2.readFile (getCorpusFilePath corpus fspec) =
        some (strConcat ((getFormReferences corpus.content).map
          (fun i => fspec.writer (resolveForm fmap i))))) ∧
    getFormReferences "" = [] := by
  obtain ⟨rOut, hrl⟩ := resolveWriteLoop_all_found fspec.writer fmap false
    (getFormReferences corpus.content) hall
  refine ⟨⟨generateNewCorpusFile corpus (getCorpusFilename corpus fspec) format_ user now rOut,
           ((fs.writeFile (getCorpusFilePath corpus fspec)
              (strConcat ((getFormReferences corpus.content).map
                (fun i => fspec.writer (resolveForm fmap i))))).writeFile
             (getCorpusFilePath corpus fspec ++ ".gz")
             (strConcat ((getFormReferences corpus.content).map
               (fun i => fspec.writer (resolveForm fmap i))))),
           ?_, ?_⟩, rfl⟩
  · simp only [writeToFile, hfmt, writeCorpusFileToDisk, hfs, hfd, hrl,
      compressFile_writeFile, ite_self]
  · exact readFile_after_compress _ _ _

/-- Witness for C7: corpusW references forms 1, 2, 1 in that order (a repeat
included) and the exported file holds w1;w2;w1;. -/
theorem writeToFile_reference_order_witness :
    formatsT.find? (fun p => decide (p.1 = "t")) = some ("t", fmtT) ∧
    corpusW.formSearch = none ∧
    formsDict corpusW.forms = .ok fmapW ∧
    (∀ i ∈ getFormReferences corpusW.content,
      (fmapW.find? (fun p => decide (p.1 = i))).isSome = true) ∧
    ((∃ corpus2 fs2, writeToFile formatsT userA 9 corpusW "t" fsW = .success corpus2 fs2 ∧
       fs2.readFile (getCorpusFilePath corpusW fmtT) =
         some (strConcat ((getFormReferences corpusW.content).map
           (fun i => fmtT.writer (resolveForm fmapW i))))) ∧
     getFormReferences "" = []) :=
  ⟨rfl, rfl, rfl, by decide,
   writeToFile_writes_forms_in_reference_order formatsT userA 9 corpusW "t" "t" fmtT fsW
     fmapW rfl rfl rfl (by decide)⟩

/-- C10 counterexample: submitting data equal to corpusU's state — identical
name, description, content and formSearch, and forms and tags equal as sets
after dropping falsy entries (the submitted forms are the current form plus
one falsy entry) — does NOT produce the 400 "not new" response the claim
requires: the update goes through with status 200, creates a backup, and
changes the corpus's modifier and modification time. -/
theorem update_unchanged_claim_counterexample :
    pySetEq (dataU.forms.filterMap id) (corpusU.forms.filterMap id) = true ∧
    pySetEq (dataU.tags.filterMap id) (corpusU.tags.filterMap id) = true ∧
    dataU.name = corpusU.name ∧
    dataU.description = corpusU.description ∧
    dataU.content = corpusU.content ∧
    dataU.formSearch = corpusU.formSearch ∧
    (CorporaController.update id userA 99 dbU 1 dataU).2.status = 200 ∧
    (CorporaController.update id userA 99 dbU 1 dataU).1.backups =
      [CorpusBackup.mk corpusU] ∧
    ((CorporaController.update id userA 99 dbU 1 dataU).1.findCorpus 1).map
      Corpus.modifier = some userA.id ∧
    ((CorporaController.update id userA 99 dbU 1 dataU).1.findCorpus 1).map
      Corpus.datetimeModified = some 99 :=
  ⟨by decide, by decide, rfl, rfl, rfl, rfl, by decide, by decide, by decide, by decide⟩

/-- C10 (amended): for an existing corpus, a PUT update whose submitted data
are equivalent to the current state — equal normalized name, description,
content and formSearch, and forms and tags equal as sets after dropping falsy
entries — AND whose submitted forms and tags lists contain no falsy entries,
returns HTTP 400 with the "not new" error, creates no CorpusBackup, and leaves
the stored corpus (in particular its modifier and datetimeModified)
unchanged. -/
theorem update_unchanged_data_returns_400 (normalize : String → String)
    (user : User) (now : Nat) (db : DB) (id0 : Nat) (corpus : Corpus)
    (data : CorpusData)
    (hfind : db.findCorpus id0 = some corpus)
    (hname : normalize data.name = corpus.name)
    (hdesc : normalize data.description = corpus.description)
    (hcontent : normalize data.content = corpus.content)
    (hfsearch : data.formSearch = corpus.formSearch)
    (hforms : ∀ x ∈ data.forms, x ≠ none)
    (htags : ∀ x ∈ data.tags, x ≠ none)
    (hformsEq : pySetEq (data.forms.filterMap id) (corpus.forms.filterMap id) = true)
    (htagsEq : pySetEq (data.tags.filterMap id) (corpus.tags.filterMap id) = true) :
    CorporaController.update normalize user now db id0 data =
      (db, ⟨400, .error "The update request failed because the submitted data were not new."⟩) := by
  have hf1 : (data.forms.filterMap id).map some = data.forms :=
    filterMap_id_map_some data.forms hforms
  have ht1 : (data.tags.filterMap id).map some = data.tags :=
    filterMap_id_map_some data.tags htags
  have hu : updateCorpus normalize user now corpus data = none := by
    simp only [updateCorpus, hname, hdesc, hcontent, hfsearch, setAttr, hf1, ht1,
      pySetEq_self]
    simp
  simp [CorporaController.update, hfind, hu]

/-- Witness for C10 (amended): submitting corpusV's own two forms, reordered
and with one duplicated (no falsy entries), together with unchanged scalar
fields, is rejected as not new and changes nothing. -/
theorem update_unchanged_data_returns_400_witness :
    dbV.findCorpus 1 = some corpusV ∧
    id dataV.name = corpusV.name ∧
    id dataV.description = corpusV.description ∧
    id dataV.content = corpusV.content ∧
    dataV.formSearch = corpusV.formSearch ∧
    (∀ x ∈ dataV.forms, x ≠ none) ∧
    (∀ x ∈ dataV.tags, x ≠ none) ∧
    pySetEq (dataV.forms.filterMap id) (corpusV.forms.filterMap id) = true ∧
    pySetEq (dataV.tags.filterMap id) (corpusV.tags.filterMap id) = true ∧
    CorporaController.update id userA 99 dbV 1 dataV =
      (dbV, ⟨400, .error "The update request failed because the submitted data were not new."⟩) :=
  ⟨rfl, rfl, rfl, rfl, rfl, by decide, by decide, by decide, by decide,
   update_unchanged_data_returns_400 id userA 99 dbV 1 corpusV dataV rfl rfl rfl rfl rfl
     (by decide) (by decide) (by decide) (by decide)⟩

end Old
